import Mathlib

/-!
Verification development for the gasms dashboard (src/pocket.py, src/app.py).

The program is a terminal dashboard: `load_config` reads a YAML file and
returns the substructure under its top-level "config" key;
`query_application` shells out to `pocketd ... --output json` and returns
the "application" member of the parsed stdout, or an error dict;
`GASMSApp.refresh_table` maps each configured application address to one
table row; `GASMSApp.on_input_submitted` handles the command input.

Embedding conventions:
- Python/JSON values are modelled by `JValue` (JSON numbers are modelled as
  integers; none of the verified behaviour depends on fractional literals).
- Raising an exception is modelled by `Except.error msg` where `msg` is a
  rendering of the exception; exact Python message texts are abbreviated
  (e.g. "KeyError: stake" for Python's KeyError) since no verified
  behaviour depends on the precise wording, only on which exception arises
  and that its description is embedded in the output.
- External effects are modelled by explicit outcome types: `FileOutcome`
  for open/read plus `yaml.safe_load`, and `RunOutcome` for
  `subprocess.run` plus `json.loads` of the captured stdout.
- `round(x, 2)` on `int(amount) / 1_000_000` is modelled in exact rational
  arithmetic with round-half-to-even (Python's rounding mode). Python
  computes this through binary floating point, which can differ from the
  exact result only at representation-induced tie-breaks (and overflows
  for astronomically large stakes); those float artefacts are not modelled.
-/

/-- A Python/JSON value as produced by `yaml.safe_load` / `json.loads`. -/
inductive JValue where
  | null
  | bool (b : Bool)
  | num (n : Int)
  | str (s : String)
  | arr (xs : List JValue)
  | obj (fields : List (String × JValue))

/-- Python truthiness of a `JValue` (used by `if data["service_configs"]`). -/
def truthy : JValue → Bool
  | .null => false
  | .bool b => b
  | .num n => n != 0
  | .str s => s != ""
  | .arr xs => !xs.isEmpty
  | .obj fields => !fields.isEmpty

/-- Substring test, for the Python expression `needle in haystack` on strings. -/
def strContains (hay needle : String) : Bool :=
  (List.range (hay.length + 1)).any (fun i => needle.toList.isPrefixOf (hay.toList.drop i))

/-- The Python membership test `k in v` for a string `k`: key membership for a
dict, element membership for a list (a string key can only equal a string
element), substring for a string; any other value raises TypeError. -/
def pyIn (k : String) : JValue → Except String Bool
  | .obj fields => .ok (fields.any (fun f => f.1 == k))
  | .arr xs => .ok (xs.any (fun x => match x with | .str s => s == k | _ => false))
  | .str s => .ok (strContains s k)
  | _ => .error "TypeError: argument is not iterable"

/-- A Python subscript: `v[k]` with a string or integer key. -/
inductive PyKey where
  | s (k : String)
  | i (n : Int)

/-- Python subscripting `v[k]`: dict lookup (KeyError when absent), list
indexing with negative-index wraparound (IndexError out of range), string
indexing; TypeError on non-subscriptable values or mismatched key kinds. -/
def pyGetItem : JValue → PyKey → Except String JValue
  | .obj fields, .s k =>
    match List.lookup k fields with
    | some v => .ok v
    | none => .error ("KeyError: " ++ k)
  | .obj _, .i n => .error ("KeyError: " ++ toString n)
  | .arr xs, .i n =>
    let idx : Int := if n < 0 then n + xs.length else n
    if 0 ≤ idx then
      match xs[idx.toNat]? with
      | some v => .ok v
      | none => .error "IndexError: list index out of range"
    else .error "IndexError: list index out of range"
  | .arr _, .s _ => .error "TypeError: list indices must be integers"
  | .str s, .i n =>
    let idx : Int := if n < 0 then n + s.length else n
    if 0 ≤ idx then
      match s.toList[idx.toNat]? with
      | some c => .ok (.str (String.mk [c]))
      | none => .error "IndexError: string index out of range"
    else .error "IndexError: string index out of range"
  | .str _, .s _ => .error "TypeError: string indices must be integers"
  | _, _ => .error "TypeError: object is not subscriptable"

/-- Python `int(s)` on a string: optional sign then decimal digits.
(Surrounding whitespace and underscore separators, which Python also
accepts, are not modelled; nothing verified depends on them.) -/
def pyParseInt (s : String) : Except String Int :=
  let signed : Int × List Char :=
    match s.toList with
    | '-' :: r => (-1, r)
    | '+' :: r => (1, r)
    | r => (1, r)
  if !signed.2.isEmpty && signed.2.all Char.isDigit then
    .ok (signed.1 * ((signed.2.foldl (fun a c => a * 10 + (c.toNat - 48)) 0 : Nat) : Int))
  else
    .error ("invalid literal for int() with base 10: " ++ s)

/-- Python `int(v)` on a `JValue`: parses strings, passes integers through,
converts booleans, and raises TypeError otherwise. -/
def pyIntOf : JValue → Except String Int
  | .str s => pyParseInt s
  | .num n => .ok n
  | .bool b => .ok (if b then 1 else 0)
  | _ => .error "TypeError: int argument must be a string or a number"

/-- Python whitespace, as stripped by `str.strip()`. -/
def isPySpace (c : Char) : Bool :=
  c = ' ' || c = '\t' || c = '\n' || c = '\r' || c = '\x0b' || c = '\x0c'

/-- Python `s.strip()`: removes leading and trailing whitespace. -/
def pyStrip (s : String) : String :=
  String.mk (((s.toList.dropWhile isPySpace).reverse.dropWhile isPySpace).reverse)

/-- Round `num / den` (with `den > 0`) to the nearest integer, ties to even:
Python's rounding mode for `round`. -/
def roundHalfEven (num den : Int) : Int :=
  let q := Int.ediv num den
  let r := Int.emod num den
  if 2 * r < den then q
  else if den < 2 * r then q + 1
  else if Int.emod q 2 = 0 then q else q + 1

/-- Render a number of hundredths as a fixed two-decimal string, as
`f-string :.2f` formatting does for a value with at most two decimals. -/
def fmtCents (c : Int) : String :=
  let a := c.natAbs
  (if c < 0 then "-" else "")
    ++ toString (a / 100) ++ "."
    ++ (if a % 100 < 10 then "0" ++ toString (a % 100) else toString (a % 100))

/-- The displayed stake for raw integer amount `n`:
`round(int(amount) / 1_000_000, 2)` then `:.2f` formatting, in exact
arithmetic (`n / 10^6` to two decimals is `n / 10^4` hundredths). -/
def fmtStake (n : Int) : String :=
  fmtCents (roundHalfEven n 10000)

/-! ## pocket.py -/

/-- Outcome of `yaml.safe_load` on the bytes read from the config file. -/
inductive YamlOutcome where
  | yamlError (msg : String)
  | doc (v : JValue)

/-- Outcome of opening and reading the config file. -/
inductive FileOutcome where
  | ioError (msg : String)
  | content (y : YamlOutcome)

/-- `load_config` (src/pocket.py lines 5-16): reads and parses the YAML file;
the `except` clause re-raises every failure. On a parsed document the debug
`print(list(config.keys()))` raises AttributeError unless the document is a
mapping, and `config["config"]` raises KeyError when the wrapper key is
absent; both are re-raised. On success the value under "config" is returned. -/
def load_config (f : FileOutcome) : Except String JValue :=
  match f with
  | .ioError m => .error m
  | .content (.yamlError m) => .error m
  | .content (.doc v) =>
    match v with
    | .obj fields =>
      match List.lookup "config" fields with
      | some c => .ok c
      | none => .error "KeyError: config"
    | _ => .error "AttributeError: keys"

/-- Outcome of `json.loads` on the stdout captured from the subprocess. -/
inductive JsonOutcome where
  | invalidJson (msg : String)
  | doc (v : JValue)

/-- Outcome of `subprocess.run(cmd, check=True, capture_output=True)`:
the command exited non-zero (CalledProcessError), the process could not be
run at all (e.g. OSError because the binary is missing), or it completed
with captured stdout, given here together with its `json.loads` outcome. -/
inductive RunOutcome where
  | nonZeroExit (diag : String)
  | spawnError (msg : String)
  | completed (stdout : JsonOutcome)

/-- `query_application` (src/pocket.py lines 18-31). A CalledProcessError is
turned into an error dict carrying the diagnostic text. Any other exception
falls to the second handler, whose debug print evaluates `result.stdout`:
when `subprocess.run` itself raised, the local `result` was never bound, so
the handler raises UnboundLocalError instead of returning; when the run
completed but `json.loads` or the `["application"]` access failed, `result`
is bound and the handler returns the Parse-failure error dict. -/
def query_application (run : RunOutcome) : Except String JValue :=
  match run with
  | .nonZeroExit diag => .ok (.obj [("error", .str ("Subprocess failed: " ++ diag))])
  | .spawnError _ => .error "UnboundLocalError: local variable result referenced before assignment"
  | .completed (.invalidJson _) => .ok (.obj [("error", .str "Parse failure")])
  | .completed (.doc v) =>
    match pyGetItem v (.s "application") with
    | .ok a => .ok a
    | .error _ => .ok (.obj [("error", .str "Parse failure")])

/-! ## app.py -/

/-- One DataTable row as added by `refresh_table` (src/app.py lines 75, 81,
83): address, stake column, service column (the raw extracted `service_id`
value, or the "-" placeholder), gateway column. -/
structure Row where
  addr : String
  stake : String
  service : JValue
  gateway : String

/-- The body of the `try` block (src/app.py lines 79-80): compute the stake
display string and the service cell; any exception escapes to the `except`
clause. The stake is computed first (line 79), then `service_configs` is
fetched, its truthiness decides between `[0]["service_id"]` and "-"
(line 80). -/
def computeCells (data : JValue) : Except String (String × JValue) := do
  let st ← pyGetItem data (.s "stake")
  let am ← pyGetItem st (.s "amount")
  let n ← pyIntOf am
  let sc ← pyGetItem data (.s "service_configs")
  if truthy sc then
    let c0 ← pyGetItem sc (.i 0)
    let sid ← pyGetItem c0 (.s "service_id")
    pure (fmtStake n, sid)
  else
    pure (fmtStake n, .str "-")

/-- One iteration of the refresh loop (src/app.py lines 70-83) for address
`app` whose query had outcome `run`: call `query_application` (an exception
there, line 72, is uncaught), test `"error" in data` (line 74, also outside
the `try`, so a TypeError there is uncaught), then either the fixed error
row, or the `try` block mapped to a success row or a ParseErr row. -/
def rowFor (gw app : String) (run : RunOutcome) : Except String Row := do
  let data ← query_application run
  let hasErr ← pyIn "error" data
  if hasErr then
    pure ⟨app, "Error", .str "-", "-"⟩
  else
    match computeCells data with
    | .ok cells => pure ⟨app, cells.1, cells.2, gw⟩
    | .error e => pure ⟨app, "ParseErr: " ++ e, .str "-", "-"⟩

/-- The table contents after a refresh: the rows added so far, and the
exception that aborted the loop, if any. -/
structure RefreshResult where
  rows : List Row
  exc : Option String

/-- The `for app in self.config["applications"]` loop of `refresh_table`:
each address adds exactly one row unless its iteration raises, which aborts
the loop (and the refresh); rows added before the exception remain. -/
def refreshLoop (gw : String) (q : String → RunOutcome) : List String → RefreshResult
  | [] => ⟨[], none⟩
  | a :: rest =>
    match rowFor gw a (q a) with
    | .error e => ⟨[], some e⟩
    | .ok r => ⟨r :: (refreshLoop gw q rest).rows, (refreshLoop gw q rest).exc⟩

/-- `refresh_table` (src/app.py lines 66-83): `self.table.clear()` discards
the prior rows `prior`, then the loop repopulates from scratch. -/
def refresh_table (prior : List Row) (gw : String) (apps : List String)
    (q : String → RunOutcome) : RefreshResult :=
  refreshLoop gw q apps

/-- The values captured by `on_mount` (src/app.py lines 50-57):
`self.config`, `self.rpc = config["rpc_endpoint"]`, and
`self.gateway = config["gateways"][0]`. -/
structure BootCtx where
  config : JValue
  rpc : JValue
  gateway : JValue

/-- `on_mount` (src/app.py lines 50-57): load the configuration (a failure
propagates and aborts startup), then capture the rpc endpoint and the first
gateway; these subscripts are unguarded, so a missing key or an empty
gateway list raises out of `on_mount`. -/
def on_mount (f : FileOutcome) : Except String BootCtx := do
  let config ← load_config f
  let rpc ← pyGetItem config (.s "rpc_endpoint")
  let gws ← pyGetItem config (.s "gateways")
  let gateway ← pyGetItem gws (.i 0)
  pure ⟨config, rpc, gateway⟩

/-- The `self.config["applications"]` subscript performed by `refresh_table`
(src/app.py line 70), unguarded like the accesses in `on_mount`. -/
def refresh_apps (config : JValue) : Except String JValue :=
  pyGetItem config (.s "applications")

/-- The dashboard state touched by the command input: whether the input is
visible and whether `self.app.exit()` has been called. -/
structure UiState where
  cmdVisible : Bool
  exited : Bool

/-- `on_input_submitted` (src/app.py lines 89-96): strip the submitted text,
hide the input, repaint, and exit the app when the stripped text is "q". -/
def on_input_submitted (st : UiState) (value : String) : UiState :=
  let cmd := pyStrip value
  let st1 : UiState := ⟨false, st.exited⟩
  if cmd = "q" then ⟨st1.cmdVisible, true⟩ else st1

/-- A query outcome on which the refresh loop body cannot raise:
`query_application` returns a value (does not itself raise) and the
`"error" in data` membership test is defined on that value. Every error
dict produced by `query_application` and every success value of the
documented shape (a JSON object) satisfies this. -/
def queryIterable (run : RunOutcome) : Prop :=
  ∃ data b, query_application run = .ok data ∧ pyIn "error" data = .ok b

/-- The top-level wrapper structure `load_config` requires of the parsed
document: a mapping carrying the "config" key; yields the nested
substructure under that key. -/
def configWrapper : JValue → Option JValue
  | .obj fields => List.lookup "config" fields
  | _ => none

/-! ## Helper lemmas -/

theorem okBind {ε α β : Type} (a : α) (f : α → Except ε β) :
    ((Except.ok a : Except ε α) >>= f) = f a := rfl

theorem pureExcept {ε α : Type} (a : α) : (pure a : Except ε α) = Except.ok a := rfl

theorem errBind {ε α β : Type} (e : ε) (f : α → Except ε β) :
    ((Except.error e : Except ε α) >>= f) = Except.error e := rfl

theorem pyGetItem_cons_zero (x : JValue) (xs : List JValue) :
    pyGetItem (.arr (x :: xs)) (.i 0) = .ok x := by
  simp [pyGetItem]

/-- A query outcome satisfying `queryIterable` yields exactly one row, whose
address column is the queried address. -/
theorem rowFor_ok (gw app : String) (run : RunOutcome) (h : queryIterable run) :
    ∃ r, rowFor gw app run = .ok r ∧ r.addr = app := by
  obtain ⟨data, b, hq, hin⟩ := h
  simp only [rowFor]
  rw [hq, okBind, hin, okBind]
  cases b with
  | true => exact ⟨_, rfl, rfl⟩
  | false =>
    simp only [Bool.false_eq_true, if_false]
    cases hc : computeCells data with
    | ok cells => exact ⟨_, rfl, rfl⟩
    | error e => exact ⟨_, rfl, rfl⟩

/-! ## Claims -/

/-- C1 counterexample: the claim promises exactly N rows per refresh
"regardless of whether each individual query succeeds or fails", but when a
query succeeds with a non-iterable application value (here the external
output parses to a JSON object whose "application" member is the number 5),
the unguarded `"error" in data` test at src/app.py line 74 raises TypeError,
aborting the refresh: a 1-address configuration yields 0 rows. -/
theorem C1_counterexample :
    (refresh_table [] "G" ["a1"]
      (fun _ => .completed (.doc (.obj [("application", .num 5)])))).rows.length = 0 ∧
    ["a1"].length = 1 ∧
    (refresh_table [] "G" ["a1"]
      (fun _ => .completed (.doc (.obj [("application", .num 5)])))).exc
      = some "TypeError: argument is not iterable" :=
  ⟨rfl, rfl, rfl⟩

/-- C1 (amended): for every configuration with N application addresses, one
refresh produces exactly N rows, one per configured address in the
configured order, provided each query_application call returns a value on
which the membership test is defined (which covers every error result and
every documented-shape success); the refresh then completes without an
uncaught exception. -/
theorem C1_refresh_row_count (prior : List Row) (gw : String) (apps : List String)
    (q : String → RunOutcome) (h : ∀ a ∈ apps, queryIterable (q a)) :
    (refresh_table prior gw apps q).rows.map Row.addr = apps ∧
    (refresh_table prior gw apps q).exc = none := by
  revert h
  induction apps with
  | nil => intro h; exact ⟨rfl, rfl⟩
  | cons a rest ih =>
    intro h
    obtain ⟨r, hr, haddr⟩ := rowFor_ok gw a (q a) (h a (List.mem_cons_self a rest))
    have ihm := ih (fun x hx => h x (List.mem_cons_of_mem a hx))
    simp only [refresh_table, refreshLoop, hr] at ihm ⊢
    exact ⟨by rw [List.map_cons, haddr, ihm.1], ihm.2⟩

/-- C1 witness: a 2-address refresh where both queries exit non-zero still
produces exactly the two addresses, in order. -/
theorem C1_refresh_row_count_witness :
    (refresh_table [] "G" ["x", "y"] (fun _ => .nonZeroExit "boom")).rows.map Row.addr
      = ["x", "y"] ∧
    (refresh_table [] "G" ["x", "y"] (fun _ => .nonZeroExit "boom")).exc = none :=
  C1_refresh_row_count [] "G" ["x", "y"] (fun _ => .nonZeroExit "boom")
    (fun _ _ => ⟨.obj [("error", .str "Subprocess failed: boom")], true, rfl, rfl⟩)

/-- C2: evaluation of the code at the failing input. When `subprocess.run`
itself raises (here: the pocketd binary is missing), the except-Exception
handler of query_application evaluates `result.stdout` with the local
`result` unbound, so query_application raises UnboundLocalError instead of
returning an error value, and the refresh aborts with no rows — contrary to
the claim, which is the evident intent of the handler (its unreached
`return` statement). The non-zero-exit case does behave as claimed,
returning an error dict carrying the diagnostic text. -/
theorem C2_spawn_failure_raises :
    query_application (.spawnError "pocketd: No such file or directory")
      = .error "UnboundLocalError: local variable result referenced before assignment" ∧
    (refresh_table [] "G" ["a1"] (fun _ => .spawnError "pocketd: No such file or directory")).rows
      = [] ∧
    (refresh_table [] "G" ["a1"] (fun _ => .spawnError "pocketd: No such file or directory")).exc
      = some "UnboundLocalError: local variable result referenced before assignment" ∧
    query_application (.nonZeroExit "Command pocketd returned non-zero exit status 1.")
      = .ok (.obj [("error",
          .str "Subprocess failed: Command pocketd returned non-zero exit status 1.")]) :=
  ⟨rfl, rfl, rfl, rfl⟩

/-- C3 counterexample: an external-invocation failure (address a1, non-zero
exit) and a JSON parse failure (address a2, invalid stdout) render rows with
identical cell text ("Error", "-", "-"): the three recoverable failure kinds
are not pairwise distinguishable by row content, refuting the claim. -/
theorem C3_counterexample :
    (refresh_table [] "G" ["a1", "a2"]
        (fun a => if a = "a1" then .nonZeroExit "exit status 1"
                  else .completed (.invalidJson "Expecting value"))).rows.map
        (fun r => (r.stake, r.service, r.gateway))
      = [("Error", .str "-", "-"), ("Error", .str "-", "-")] := rfl

/-- C3 (amended): external invocation failure and JSON/structure parse
failure render the same placeholder row ("Error", "-", "-"); only
field-extraction failure renders a distinct placeholder,
"ParseErr: " followed by the failure description, which always differs from
the "Error" token. So exactly two of the three failure kinds are
distinguishable by row text. -/
theorem C3_error_placeholders (gw app diag msg : String) (run : RunOutcome)
    (data : JValue) (e : String)
    (hq : query_application run = .ok data)
    (hin : pyIn "error" data = .ok false)
    (hc : computeCells data = .error e) :
    rowFor gw app (.nonZeroExit diag) = .ok ⟨app, "Error", .str "-", "-"⟩ ∧
    rowFor gw app (.completed (.invalidJson msg)) = .ok ⟨app, "Error", .str "-", "-"⟩ ∧
    rowFor gw app run = .ok ⟨app, "ParseErr: " ++ e, .str "-", "-"⟩ ∧
    "ParseErr: " ++ e ≠ "Error" := by
  refine ⟨rfl, rfl, ?_, ?_⟩
  · simp only [rowFor]
    rw [hq, okBind, hin, okBind]
    simp [hc, pureExcept]
  · intro hcontra
    have hl := congrArg String.length hcontra
    rw [String.length_append] at hl
    have h10 : ("ParseErr: " : String).length = 10 := rfl
    have h5 : ("Error" : String).length = 5 := rfl
    omega

/-- C3 witness: the amended statement at concrete inputs — an exit-status
failure, an invalid-JSON response, and a malformed stake amount. -/
theorem C3_error_placeholders_witness :
    rowFor "G" "addr1" (.nonZeroExit "exit status 1") = .ok ⟨"addr1", "Error", .str "-", "-"⟩ ∧
    rowFor "G" "addr1" (.completed (.invalidJson "Expecting value"))
      = .ok ⟨"addr1", "Error", .str "-", "-"⟩ ∧
    rowFor "G" "addr1" (.completed (.doc (.obj [("application",
        .obj [("stake", .obj [("amount", .str "abc")]), ("service_configs", .arr [])])])))
      = .ok ⟨"addr1", "ParseErr: invalid literal for int() with base 10: abc", .str "-", "-"⟩ ∧
    "ParseErr: invalid literal for int() with base 10: abc" ≠ "Error" :=
  C3_error_placeholders "G" "addr1" "exit status 1" "Expecting value"
    (.completed (.doc (.obj [("application",
        .obj [("stake", .obj [("amount", .str "abc")]), ("service_configs", .arr [])])])))
    (.obj [("stake", .obj [("amount", .str "abc")]), ("service_configs", .arr [])])
    "invalid literal for int() with base 10: abc"
    rfl rfl rfl

/-- C4: a successful record with well-formed fields produces a row whose
stake column is the string-encoded integer amount divided by 1,000,000,
rounded and formatted to two decimals (`fmtStake`; in particular
amount "2500000" displays as "2.50"), whose service column is the first
service_configs entry's service_id — or "-" when service_configs is
empty — and whose gateway column is the configured gateway. -/
theorem C4_success_row (gw app : String) (run : RunOutcome) (data st : JValue)
    (s : String) (n : Int) (cfgs : List JValue)
    (hq : query_application run = .ok data)
    (hin : pyIn "error" data = .ok false)
    (hst : pyGetItem data (.s "stake") = .ok st)
    (ham : pyGetItem st (.s "amount") = .ok (.str s))
    (hn : pyParseInt s = .ok n)
    (hsc : pyGetItem data (.s "service_configs") = .ok (.arr cfgs)) :
    (cfgs = [] → rowFor gw app run = .ok ⟨app, fmtStake n, .str "-", gw⟩) ∧
    (∀ c rest sid, cfgs = c :: rest → pyGetItem c (.s "service_id") = .ok sid →
      rowFor gw app run = .ok ⟨app, fmtStake n, sid, gw⟩) ∧
    fmtStake 2500000 = "2.50" := by
  have hrow : ∀ cells, computeCells data = .ok cells →
      rowFor gw app run = .ok ⟨app, cells.1, cells.2, gw⟩ := by
    intro cells hcc
    simp only [rowFor]
    rw [hq, okBind, hin, okBind]
    simp [hcc, pureExcept]
  refine ⟨?_, ?_, by decide⟩
  · intro hnil
    apply hrow (fmtStake n, .str "-")
    simp only [computeCells]
    rw [hst, okBind, ham, okBind]
    simp only [pyIntOf]
    rw [hn, okBind, hsc, okBind]
    subst hnil
    simp [truthy, pureExcept]
  · intro c rest sid hcons hsid
    apply hrow (fmtStake n, sid)
    simp only [computeCells]
    rw [hst, okBind, ham, okBind]
    simp only [pyIntOf]
    rw [hn, okBind, hsc, okBind]
    subst hcons
    simp [truthy, pyGetItem_cons_zero, okBind, hsid, pureExcept]

/-- C4 witness: a concrete well-formed record with stake amount "2500000"
and one service config renders as ("2.50", "svc1", gateway). -/
theorem C4_success_row_witness :
    rowFor "G" "addr1" (.completed (.doc (.obj [("application",
        .obj [("stake", .obj [("amount", .str "2500000")]),
              ("service_configs", .arr [.obj [("service_id", .str "svc1")]])])])))
      = .ok ⟨"addr1", "2.50", .str "svc1", "G"⟩ := by
  have h := C4_success_row "G" "addr1"
    (.completed (.doc (.obj [("application",
        .obj [("stake", .obj [("amount", .str "2500000")]),
              ("service_configs", .arr [.obj [("service_id", .str "svc1")]])])])))
    (.obj [("stake", .obj [("amount", .str "2500000")]),
           ("service_configs", .arr [.obj [("service_id", .str "svc1")]])])
    (.obj [("amount", .str "2500000")])
    "2500000" 2500000 [.obj [("service_id", .str "svc1")]]
    rfl rfl rfl rfl rfl rfl
  have h2 := h.2.1 (.obj [("service_id", .str "svc1")]) [] (.str "svc1") rfl rfl
  rw [h.2.2] at h2
  exact h2

/-- C5: whenever the value returned by query_application carries a top-level
"error" key (so the membership test is true), the produced row is exactly
the fixed error token in the stake column and the "-" placeholder in the
service and gateway columns; in a refresh this is the row emitted for that
address. -/
theorem C5_error_indicator_row (gw app : String) (run : RunOutcome) (data : JValue)
    (hq : query_application run = .ok data)
    (hin : pyIn "error" data = .ok true) :
    rowFor gw app run = .ok ⟨app, "Error", .str "-", "-"⟩ ∧
    ∀ (prior : List Row) (rest : List String) (q : String → RunOutcome), q app = run →
      (refresh_table prior gw (app :: rest) q).rows.head?
        = some ⟨app, "Error", .str "-", "-"⟩ := by
  have hr : rowFor gw app run = .ok ⟨app, "Error", .str "-", "-"⟩ := by
    simp only [rowFor]
    rw [hq, okBind, hin, okBind]
    simp [pureExcept]
  refine ⟨hr, ?_⟩
  intro prior rest q hqa
  simp only [refresh_table, refreshLoop, hqa, hr]
  rfl

/-- C5 witness: a non-zero-exit query produces the error-indicator dict, and
its row in a refresh is exactly ("Error", "-", "-"). -/
theorem C5_error_indicator_row_witness :
    rowFor "G" "addr1" (.nonZeroExit "boom") = .ok ⟨"addr1", "Error", .str "-", "-"⟩ ∧
    (refresh_table [] "G" ["addr1", "addr2"] (fun _ => .nonZeroExit "boom")).rows.head?
      = some ⟨"addr1", "Error", .str "-", "-"⟩ := by
  have h := C5_error_indicator_row "G" "addr1" (.nonZeroExit "boom")
    (.obj [("error", .str "Subprocess failed: boom")]) rfl rfl
  exact ⟨h.1, h.2 [] ["addr2"] (fun _ => .nonZeroExit "boom") rfl⟩

/-- C6: when the query returns a record without an error indicator but the
field mapping raises with description `e` (malformed stake, missing nested
field, ...), the produced row is the parse-error placeholder embedding `e`,
and the refresh continues with the remaining addresses: the rows after this
one are exactly the rows of the refresh over the remaining addresses, with
the same final outcome. -/
theorem C6_parse_error_row_continues (gw app : String) (run : RunOutcome) (data : JValue)
    (e : String) (prior : List Row) (rest : List String) (q : String → RunOutcome)
    (hq : query_application run = .ok data)
    (hin : pyIn "error" data = .ok false)
    (hc : computeCells data = .error e)
    (hqa : q app = run) :
    (refresh_table prior gw (app :: rest) q).rows
        = ⟨app, "ParseErr: " ++ e, .str "-", "-"⟩ :: (refresh_table prior gw rest q).rows ∧
    (refresh_table prior gw (app :: rest) q).exc = (refresh_table prior gw rest q).exc := by
  have hr : rowFor gw app run = .ok ⟨app, "ParseErr: " ++ e, .str "-", "-"⟩ := by
    simp only [rowFor]
    rw [hq, okBind, hin, okBind]
    simp [hc, pureExcept]
  constructor <;> simp only [refresh_table, refreshLoop, hqa, hr]

/-- C6 witness: a malformed stake amount ("abc") for the first of two
addresses yields its ParseErr row followed by the rows for the rest. -/
theorem C6_parse_error_row_continues_witness :
    (refresh_table [] "G" ["addr1", "addr2"]
        (fun a => if a = "addr1"
          then .completed (.doc (.obj [("application",
            .obj [("stake", .obj [("amount", .str "abc")]), ("service_configs", .arr [])])]))
          else .nonZeroExit "boom")).rows
      = ⟨"addr1", "ParseErr: invalid literal for int() with base 10: abc", .str "-", "-"⟩ ::
        (refresh_table [] "G" ["addr2"]
          (fun a => if a = "addr1"
            then .completed (.doc (.obj [("application",
              .obj [("stake", .obj [("amount", .str "abc")]), ("service_configs", .arr [])])]))
            else .nonZeroExit "boom")).rows :=
  (C6_parse_error_row_continues "G" "addr1"
    (.completed (.doc (.obj [("application",
      .obj [("stake", .obj [("amount", .str "abc")]), ("service_configs", .arr [])])])))
    (.obj [("stake", .obj [("amount", .str "abc")]), ("service_configs", .arr [])])
    "invalid literal for int() with base 10: abc"
    [] ["addr2"]
    (fun a => if a = "addr1"
      then .completed (.doc (.obj [("application",
        .obj [("stake", .obj [("amount", .str "abc")]), ("service_configs", .arr [])])]))
      else .nonZeroExit "boom")
    rfl rfl rfl rfl).1

/-- C7: on submission the entered text is stripped of surrounding
whitespace; the input is always hidden; if the stripped value equals "q"
the process terminates (exited becomes true), and for any other stripped
value the state is unchanged apart from hiding the input. -/
theorem C7_command_submission (st : UiState) (v : String) :
    (on_input_submitted st v).cmdVisible = false ∧
    (pyStrip v = "q" → (on_input_submitted st v).exited = true) ∧
    (pyStrip v ≠ "q" → on_input_submitted st v = ⟨false, st.exited⟩) := by
  simp only [on_input_submitted]
  by_cases h : pyStrip v = "q" <;> simp [h]

/-- C7 witness: " q " (whitespace around the quit token) terminates; the
empty string and an arbitrary other command merely hide the input and leave
the state otherwise unchanged. -/
theorem C7_command_submission_witness :
    (on_input_submitted ⟨true, false⟩ " q ").exited = true ∧
    on_input_submitted ⟨true, false⟩ "" = ⟨false, false⟩ ∧
    on_input_submitted ⟨true, false⟩ "refresh" = ⟨false, false⟩ :=
  ⟨(C7_command_submission ⟨true, false⟩ " q ").2.1 (by decide),
   (C7_command_submission ⟨true, false⟩ "").2.2 (by decide),
   (C7_command_submission ⟨true, false⟩ "refresh").2.2 (by decide)⟩

/-- C8: load_config raises exactly when the file is missing or unreadable
(the read raised), the YAML parse raised, or the expected top-level wrapper
structure (a mapping with the "config" key) is absent; when the wrapper is
present it returns the nested substructure under the wrapper key. The four
cases are exhaustive over the possible file outcomes. -/
theorem C8_load_config_spec :
    (∀ m, load_config (.ioError m) = .error m) ∧
    (∀ m, load_config (.content (.yamlError m)) = .error m) ∧
    (∀ v, configWrapper v = none → ∃ e, load_config (.content (.doc v)) = .error e) ∧
    (∀ v c, configWrapper v = some c → load_config (.content (.doc v)) = .ok c) := by
  refine ⟨fun m => rfl, fun m => rfl, ?_, ?_⟩
  · intro v hv
    cases v with
    | obj fields =>
      simp only [configWrapper] at hv
      simp [load_config, hv]
    | null => exact ⟨_, rfl⟩
    | bool b => exact ⟨_, rfl⟩
    | num n => exact ⟨_, rfl⟩
    | str s => exact ⟨_, rfl⟩
    | arr xs => exact ⟨_, rfl⟩
  · intro v c hv
    cases v with
    | obj fields =>
      simp only [configWrapper] at hv
      simp [load_config, hv]
    | null => simp [configWrapper] at hv
    | bool b => simp [configWrapper] at hv
    | num n => simp [configWrapper] at hv
    | str s => simp [configWrapper] at hv
    | arr xs => simp [configWrapper] at hv

/-- C8 witness: an unreadable file propagates its error; a document without
the wrapper key fails; a wrapped document returns the nested substructure. -/
theorem C8_load_config_spec_witness :
    load_config (.ioError "No such file or directory: config.yaml")
      = .error "No such file or directory: config.yaml" ∧
    (∃ e, load_config (.content (.doc (.obj [("other", .null)]))) = .error e) ∧
    load_config (.content (.doc (.obj [("config", .obj [("rpc_endpoint", .str "r")])])))
      = .ok (.obj [("rpc_endpoint", .str "r")]) :=
  ⟨C8_load_config_spec.1 "No such file or directory: config.yaml",
   C8_load_config_spec.2.2.1 (.obj [("other", .null)]) rfl,
   C8_load_config_spec.2.2.2 (.obj [("config", .obj [("rpc_endpoint", .str "r")])])
     (.obj [("rpc_endpoint", .str "r")]) rfl⟩

/-- C9: a refresh clears the table and repopulates it from scratch, so the
resulting table state is independent of the prior table contents; in
particular, after two refreshes in succession the table equals what the
second refresh computes from an empty table, whatever the first produced. -/
theorem C9_refresh_replaces_wholesale (prior1 prior2 : List Row) (gw gw2 : String)
    (apps apps2 : List String) (q q2 : String → RunOutcome) :
    refresh_table prior1 gw2 apps2 q2 = refresh_table prior2 gw2 apps2 q2 ∧
    refresh_table (refresh_table prior1 gw apps q).rows gw2 apps2 q2
      = refresh_table prior2 gw2 apps2 q2 :=
  ⟨rfl, rfl⟩

/-- C10: load_config does not validate the inner structure, so each of the
following loader-accepted configurations reaches an uncaught lookup/index
error during boot: a config without rpc_endpoint (KeyError), without
gateways (KeyError), with an empty gateways list (IndexError), and without
applications (on_mount succeeds but the first refresh's
config["applications"] access raises KeyError). -/
theorem C10_boot_unvalidated_config :
    (load_config (.content (.doc (.obj [("config", .obj [])]))) = .ok (.obj []) ∧
      on_mount (.content (.doc (.obj [("config", .obj [])])))
        = .error "KeyError: rpc_endpoint") ∧
    (load_config (.content (.doc (.obj [("config", .obj [("rpc_endpoint", .str "r")])])))
        = .ok (.obj [("rpc_endpoint", .str "r")]) ∧
      on_mount (.content (.doc (.obj [("config", .obj [("rpc_endpoint", .str "r")])])))
        = .error "KeyError: gateways") ∧
    (load_config (.content (.doc (.obj [("config", .obj [("rpc_endpoint", .str "r"),
          ("gateways", .arr []), ("applications", .arr [])])])))
        = .ok (.obj [("rpc_endpoint", .str "r"), ("gateways", .arr []),
            ("applications", .arr [])]) ∧
      on_mount (.content (.doc (.obj [("config", .obj [("rpc_endpoint", .str "r"),
          ("gateways", .arr []), ("applications", .arr [])])])))
        = .error "IndexError: list index out of range") ∧
    (on_mount (.content (.doc (.obj [("config", .obj [("rpc_endpoint", .str "r"),
          ("gateways", .arr [.str "g"])])])))
        = .ok ⟨.obj [("rpc_endpoint", .str "r"), ("gateways", .arr [.str "g"])],
            .str "r", .str "g"⟩ ∧
      refresh_apps (.obj [("rpc_endpoint", .str "r"), ("gateways", .arr [.str "g"])])
        = .error "KeyError: applications") :=
  ⟨⟨rfl, rfl⟩, ⟨rfl, rfl⟩, ⟨rfl, rfl⟩, ⟨rfl, rfl⟩⟩
